import Mathlib

/-!
Verification of the genetic-algorithm kernel in `copads/genetic.py`.

The Python source is shallowly embedded: sequences become `List ℤ`,
Python floats become `ℚ` (all literals appearing in the program --
`0.0001`, `100.1`, fitness ratios -- are exactly representable and the
comparisons performed never distinguish binary floats from rationals at
the inputs considered), Python `random` draws are supplied by an oracle
`rnd : ℕ → ℕ` consumed in program order, and code that can raise
(`IndexError`, `ValueError`, `ZeroDivisionError`, `TypeError`) returns
`Option`.
-/

namespace Genetic

/-- Python `int(x)` on a float truncates toward zero. -/
def pytrunc (q : ℚ) : ℤ :=
  if q < 0 then -⌊-q⌋ else ⌊q⌋

/-- Normalise a Python list index: negative indices count from the end. -/
def pyNormIdx (n : ℕ) (i : ℤ) : ℤ :=
  if i < 0 then i + n else i

/-- Python `l[i]` (raises `IndexError` when out of range, hence `Option`). -/
def pyGetL (l : List ℤ) (i : ℤ) : Option ℤ :=
  let j := pyNormIdx l.length i
  if 0 ≤ j then l[j.toNat]? else none

/-- Python `l[i] = x` (raises `IndexError` when out of range). -/
def pySetL (l : List ℤ) (i : ℤ) (x : ℤ) : Option (List ℤ) :=
  let j := pyNormIdx l.length i
  if 0 ≤ j ∧ j < (l.length : ℤ) then some (l.set j.toNat x) else none

/-- Python `l.pop(i)`: returns the removed element and the remaining list. -/
def pyPopL (l : List ℤ) (i : ℤ) : Option (ℤ × List ℤ) :=
  let j := pyNormIdx l.length i
  if 0 ≤ j ∧ j < (l.length : ℤ) then
    (l[j.toNat]?).map (fun x => (x, l.eraseIdx j.toNat))
  else none

/-- Python `l.insert(i, x)`: never raises, the index is clamped into range. -/
def pyInsertL (l : List ℤ) (i : ℤ) (x : ℤ) : List ℤ :=
  let j := if i < 0 then max 0 (i + l.length) else min i (l.length : ℤ)
  l.insertIdx j.toNat x

/-- Normalise a Python slice bound (clamped into `[0, n]`). -/
def pySliceIdx (n : ℕ) (i : ℤ) : ℕ :=
  (if i < 0 then max 0 (i + n) else min i n).toNat

/-- Python `l[:b]`. -/
def pySliceTo (l : List ℤ) (b : ℤ) : List ℤ :=
  l.take (pySliceIdx l.length b)

/-- Python `l[a:]`. -/
def pySliceFrom (l : List ℤ) (a : ℤ) : List ℤ :=
  l.drop (pySliceIdx l.length a)

/-- Python `l[a:b]`. -/
def pySliceL (l : List ℤ) (a b : ℤ) : List ℤ :=
  (l.take (pySliceIdx l.length b)).drop (pySliceIdx l.length a)

/-- `Chromosome.__init__` (genetic.py:11-28): a sequence, an alphabet
(`base`) and a background mutation rate. The Python defaults are
`[0]*1000`, `[1, 0]` and `0.0001`. -/
structure Chromosome where
  sequence : List ℤ
  base : List ℤ
  background_mutation : ℚ
deriving DecidableEq, Repr

/-- The default `background_mutation` rate `0.0001` used when the
`Chromosome(...)` constructor is called without that argument, as in
`crossover`. -/
def defaultBackground : ℚ := mkRat 1 10000

/-- `mkRat` is used (rather than `1 / 10000`) so that the constant is
kernel-computable; the two are equal. -/
theorem defaultBackground_eq : defaultBackground = 1 / 10000 := by
  rw [defaultBackground, Rat.mkRat_eq_div]; norm_num

/-- Lines 51-52 of `rmutate`: `end` is first clamped to `len(seq) - 1`
and `-1` is then replaced by `len(seq) - 1`. -/
def normEnd (seqlen e : ℤ) : ℤ :=
  let e1 := if e > seqlen - 1 then seqlen - 1 else e
  if e1 = -1 then seqlen - 1 else e1

/-- Lines 51-53 of `rmutate`: the effective `(start, end)` pair after
clamping `end` and resetting `start` to 0 when `start == end`. -/
def rmutate_region (seqlen s e : ℤ) : ℤ × ℤ :=
  let e2 := normEnd seqlen e
  (if s = e2 then 0 else s, e2)

/-! ### Organism status (genetic.py:154-299)

The status record is a Python dict.  Its six pre-defined keys are
modelled as a structure of dynamically typed values; the death codes
are the strings `'death01'`/`'death02'`/`'death03'` from the source. -/

/-- A dynamically typed Python value as stored in the status dict. -/
inductive StatusValue where
  | b (v : Bool)
  | q (v : ℚ)
  | s (v : String)
  | pynone
deriving DecidableEq, Repr

/-- The six pre-defined status keys (genetic.py:175-180). -/
inductive StatusField where
  | alive
  | vitality
  | age
  | lifespan
  | fitness
  | death
deriving DecidableEq, Repr

/-- The status dict, keyed by the six pre-defined fields. -/
structure StatusDict where
  alive : StatusValue
  vitality : StatusValue
  age : StatusValue
  lifespan : StatusValue
  fitness : StatusValue
  death : StatusValue
deriving DecidableEq, Repr

/-- The class-level dict `Organism.status` (genetic.py:175-180). -/
def defaultSD : StatusDict :=
  ⟨.b true, .q 100, .q 0, .q 100, .q 100, .pynone⟩

/-- Dict read `self.status[variable]`. -/
def StatusDict.getField (st : StatusDict) : StatusField → StatusValue
  | .alive => st.alive
  | .vitality => st.vitality
  | .age => st.age
  | .lifespan => st.lifespan
  | .fitness => st.fitness
  | .death => st.death

/-- Dict write `self.status[variable] = value`. -/
def StatusDict.setField (st : StatusDict) : StatusField → StatusValue → StatusDict
  | .alive, v => { st with alive := v }
  | .vitality, v => { st with vitality := v }
  | .age, v => { st with age := v }
  | .lifespan, v => { st with lifespan := v }
  | .fitness, v => { st with fitness := v }
  | .death, v => { st with death := v }

/-- Python `float(value)`: numbers and bools coerce, strings in the
program and `None` raise (`Option`). -/
def pyFloat : StatusValue → Option ℚ
  | .b true => some 1
  | .b false => some 0
  | .q v => some v
  | .s _ => none
  | .pynone => none

/-- Python `value == b` for a bool `b`: `1 == True` and `0 == False`
hold in Python, strings and `None` never equal a bool. -/
def pyEqBool (v : StatusValue) (bb : Bool) : Bool :=
  match v with
  | .b x => x == bb
  | .q x => x == (if bb then 1 else 0)
  | .s _ => false
  | .pynone => false

/-- The source literal `100.1` of genetic.py:259-261, in a
kernel-computable form. -/
def hundredPointOne : ℚ := mkRat 1001 10

theorem hundredPointOne_eq : hundredPointOne = 100.1 := by
  rw [hundredPointOne, Rat.mkRat_eq_div]; norm_num

/-- The three successive `if`s of the `'vitality'` branch
(genetic.py:258-266), applied to `float(value) = v`. -/
def vitalityUpdate (st2 : StatusDict) (v : ℚ) : StatusDict :=
  let a := if hundredPointOne < v then { st2 with vitality := .q 100 } else st2
  let b := if 0 < v ∧ v < hundredPointOne then { a with vitality := .q v } else a
  if v = 0 ∨ v < 0 then
    { b with vitality := .q 0, alive := .b false, death := .s "death01" }
  else b

/-- `Organism.setStatus` (genetic.py:242-275), acting on the status dict
it resolves to.  Note that for `variable == 'alive'` both the two
leading `if`s and the trailing `else` branch execute, and that the
three `vitality` tests are successive non-exclusive `if`s on
`float(value)`. -/
def setStatus (st0 : StatusDict) (fld : StatusField) (value : StatusValue) :
    Option StatusDict :=
  let st1 := if fld = .alive ∧ pyEqBool value true then
      { st0 with alive := value } else st0
  let st2 := if fld = .alive ∧ pyEqBool value false then
      { st1 with alive := value, death := .s "death03" } else st1
  match fld with
  | .vitality => (pyFloat value).map (vitalityUpdate st2)
  | .age =>
    match pyFloat value, pyFloat st2.lifespan with
    | some v, some l =>
      if v < l then some { st2 with age := .q v }
      else some { st2 with age := st2.lifespan, alive := .b false,
                           death := .s "death02" }
    | _, _ => none
  | _ => some (st2.setField fld value)

/-- `Organism.getStatus` (genetic.py:277-287) restricted to the six
pre-defined keys, on which it never raises. -/
def getStatus (st : StatusDict) (fld : StatusField) : StatusValue :=
  st.getField fld

/-! ### Organisms and the shared class-level status dict

`status` is a class attribute of `Organism`; `__init__` (genetic.py:
184-202) assigns only `self.genome` and `self.gender`, and
`setStatus` mutates the dict in place via item assignment, which does
not create an instance attribute.  Attribute lookup is modelled
explicitly: `instStatus` is the would-be instance attribute (always
`none` for organisms this program creates), and lookup falls back to
the single class-level dict held in `OrgHeap`. -/

/-- The mutable class attribute `Organism.status`, shared by all
instances. -/
structure OrgHeap where
  classStatus : StatusDict
deriving DecidableEq, Repr

/-- An `Organism` instance: its `__dict__` holds `genome` and `gender`
(genetic.py:196-202); `status` is never an instance attribute in this
program, recorded by `instStatus = none`. -/
structure Organism where
  genome : List Chromosome
  gender : Option String
  instStatus : Option StatusDict
deriving DecidableEq, Repr

instance : Inhabited Organism := ⟨⟨[], none, none⟩⟩

/-- `Organism.__init__` with an explicit genome. -/
def Organism.make (genome : List Chromosome) (gender : Option String) : Organism :=
  ⟨genome, gender, none⟩

/-- Python attribute lookup for `self.status`: instance dict first,
then the class dict. -/
def statusOf (h : OrgHeap) (o : Organism) : StatusDict :=
  match o.instStatus with
  | some d => d
  | none => h.classStatus

/-- `self.setStatus(...)`: mutates, in place, whichever dict the
attribute lookup resolved to. -/
def orgSetStatus (h : OrgHeap) (o : Organism) (f : StatusField) (v : StatusValue) :
    Option (OrgHeap × Organism) :=
  match o.instStatus with
  | none => (setStatus h.classStatus f v).map (fun d => (⟨d⟩, o))
  | some d => (setStatus d f v).map (fun d' => (h, { o with instStatus := some d' }))

/-- `self.getStatus(...)` on the resolved dict. -/
def orgGetStatus (h : OrgHeap) (o : Organism) (f : StatusField) : StatusValue :=
  getStatus (statusOf h o) f

/-- `Organism.clone` (genetic.py:293-299): `deepcopy(self)` copies the
instance `__dict__` (`genome`, `gender`); `status` is not an instance
attribute, so the clone's `status` lookup still resolves to the class
dict. -/
def Organism.clone (o : Organism) : Organism :=
  ⟨o.genome, o.gender, o.instStatus⟩

/-- The default `Organism.fitness` (genetic.py:204-220): fraction of
the genome that is 1s.  (The genomes used here are nonempty, so the
Python `ZeroDivisionError` case does not arise.) -/
def Organism.fitnessQ (o : Organism) : ℚ :=
  (((o.genome.map (fun c => c.sequence.sum)).sum : ℤ) : ℚ) /
    (((o.genome.map (fun c => c.sequence.length)).sum : ℕ) : ℚ)

/-! ### `Chromosome.rmutate` (genetic.py:30-84)

Random draws come from an oracle `rnd : ℕ → ℕ`; draw `k` of a run is
`rnd k`, and each `random.*` call consumes one draw.  `randrange`/
`randint` reduce the draw into the requested interval (any value in
the interval is reachable for a suitable oracle) and raise -- return
`none` -- exactly when Python raises `ValueError` on an empty range. -/

/-- `random.randrange(m)`: a value in `[0, m)`; raises when `m ≤ 0`. -/
def randrange1 (rnd : ℕ → ℕ) (k : ℕ) (m : ℤ) : Option ℤ :=
  if 0 < m then some ((rnd k : ℤ) % m) else none

/-- `random.randrange(a, b)`: a value in `[a, b)`; raises when `b ≤ a`. -/
def randrange2 (rnd : ℕ → ℕ) (k : ℕ) (a b : ℤ) : Option ℤ :=
  if a < b then some (a + (rnd k : ℤ) % (b - a)) else none

/-- `random.randint(a, b)`: a value in `[a, b]`; raises when `b < a`. -/
def randint (rnd : ℕ → ℕ) (k : ℕ) (a b : ℤ) : Option ℤ :=
  if a ≤ b then some (a + (rnd k : ℤ) % (b - a + 1)) else none

/-- The six mutation kinds of `rmutate`/`kmutate`. -/
inductive MuType where
  | point
  | insert
  | delete
  | invert
  | duplicate
  | translocate
deriving DecidableEq, Repr

/-- `for i in range(len(frag)): seq.insert(p + i, frag[i])` -- the
re-insertion loop shared by the `duplicate` and `translocate` arms. -/
def insertFragAt (l : List ℤ) (p : ℤ) (frag : List ℤ) : List ℤ :=
  (List.range frag.length).foldl
    (fun acc (i : ℕ) => pyInsertL acc (p + (i : ℤ)) (frag.getD i 0)) l

/-- `[seq.pop(p) for i in range(k)]`: pops `k` elements at the fixed
position `p`, returning them in pop order with the remaining list. -/
def popFragment (l : List ℤ) (p : ℤ) : ℕ → Option (List ℤ × List ℤ)
  | 0 => some ([], l)
  | n + 1 =>
    match pyPopL l p with
    | none => none
    | some (x, l') =>
      match popFragment l' p n with
      | none => none
      | some (xs, l'') => some (x :: xs, l'')

/-- The sequence being mutated together with the index of the next
random draw to consume. -/
structure MuState where
  seq : List ℤ
  k : ℕ
deriving DecidableEq, Repr

/-- One iteration of the `while mutation > 0` loop of `rmutate`
(genetic.py:56-84): a position in the region and a random base are
always drawn, then the arm for the requested kind executes. -/
def rmutateStep (t : MuType) (base : List ℤ) (s e : ℤ) (rnd : ℕ → ℕ)
    (st : MuState) : Option MuState :=
  let length := e - s
  match randrange1 rnd st.k (length - 1) with
  | none => none
  | some r =>
    let position := s + r
    match randrange1 rnd (st.k + 1) (base.length : ℤ) with
    | none => none
    | some bi =>
      match pyGetL base bi with
      | none => none
      | some new_base =>
        match t with
        | .point =>
          (pySetL st.seq position new_base).map (fun l => ⟨l, st.k + 2⟩)
        | .delete =>
          (pyPopL st.seq position).map (fun p => ⟨p.2, st.k + 2⟩)
        | .insert =>
          some ⟨pyInsertL st.seq position new_base, st.k + 2⟩
        | .duplicate =>
          match randrange2 rnd (st.k + 2) (position + 1) e with
          | none => none
          | some ep =>
            let frag := pySliceL st.seq position ep
            some ⟨insertFragAt st.seq ep frag, st.k + 3⟩
        | .invert =>
          match randrange2 rnd (st.k + 2) (position + 1) e with
          | none => none
          | some ep =>
            match popFragment st.seq position (ep - position).toNat with
            | none => none
            | some (frag, l) =>
              some ⟨frag.reverse.foldl (fun acc b => pyInsertL acc position b) l,
                    st.k + 3⟩
        | .translocate =>
          match randrange2 rnd (st.k + 2) (position + 1) e with
          | none => none
          | some ep =>
            match popFragment st.seq position (ep - position).toNat with
            | none => none
            | some (frag, l) =>
              match randint rnd (st.k + 3) 0 (l.length : ℤ) with
              | none => none
              | some ip => some ⟨insertFragAt l ip frag, st.k + 4⟩

/-- The `while mutation > 0` loop, also counting the edits performed. -/
def rmutateLoop (t : MuType) (base : List ℤ) (s e : ℤ) (rnd : ℕ → ℕ) :
    ℕ → MuState → Option (MuState × ℕ)
  | 0, st => some (st, 0)
  | m + 1, st =>
    match rmutateStep t base s e rnd st with
    | none => none
    | some st' =>
      match rmutateLoop t base s e rnd m st' with
      | none => none
      | some (stf, c) => some (stf, c + 1)

/-- `Chromosome.rmutate` (genetic.py:30-84): returns the mutated
sequence and the number of edits performed, or `none` when the Python
code raises mid-run. -/
def Chromosome.rmutate (c : Chromosome) (t : MuType) (rate : ℚ) (s e : ℤ)
    (rnd : ℕ → ℕ) : Option (List ℤ × ℕ) :=
  let se := rmutate_region (c.sequence.length : ℤ) s e
  let length := se.2 - se.1
  let mutation := pytrunc ((c.background_mutation + rate) * (length : ℚ))
  match rmutateLoop t c.base se.1 se.2 rnd mutation.toNat ⟨c.sequence, 0⟩ with
  | none => none
  | some (stf, cnt) => some (stf.seq, cnt)

/-- The `'invert'` arm of `Chromosome.kmutate` (genetic.py:136-138):
`for base in self.sequence[start:end]: self.sequence.insert(start, base)`.
The slice is evaluated once, before the loop mutates the sequence. -/
def kmutate_invert (seq : List ℤ) (s e : ℤ) : List ℤ :=
  (pySliceL seq s e).foldl (fun acc b => pyInsertL acc s b) seq

/-! ### `crossover` (genetic.py:692-723)

The second component of each returned pair records whether the
returned chromosome was newly constructed by a `Chromosome(...)` call
(`true`) or is the input object itself (`false`, the final `else`
branch, which returns `(chromosome1, chromosome2)` unchanged). -/

/-- `crossover(chromosome1, chromosome2, position)`.  Newly built
chromosomes get the constructor's default `background_mutation`. -/
def crossover (c1 c2 : Chromosome) (pos : ℤ) :
    (Chromosome × Bool) × (Chromosome × Bool) :=
  let seq1 := c1.sequence
  let seq2 := c2.sequence
  if (seq1.length : ℤ) > pos ∧ (seq2.length : ℤ) > pos then
    ((⟨pySliceTo seq1 pos ++ pySliceFrom seq2 pos, c1.base, defaultBackground⟩,
       true),
     (⟨pySliceTo seq2 pos ++ pySliceFrom seq1 pos, c2.base, defaultBackground⟩,
       true))
  else if (seq1.length : ℤ) > pos then
    ((⟨pySliceTo seq1 pos, c1.base, defaultBackground⟩, true),
     (⟨seq2 ++ pySliceFrom seq1 pos, c2.base, defaultBackground⟩, true))
  else if (seq2.length : ℤ) > pos then
    ((⟨seq1 ++ pySliceFrom seq2 pos, c1.base, defaultBackground⟩, true),
     (⟨pySliceTo seq2 pos, c2.base, defaultBackground⟩, true))
  else
    ((c1, false), (c2, false))

/-! ### `Population.prepopulation_control` (genetic.py:331-358) and
`Population.freeze` (genetic.py:452-475)

`fitness` is the pluggable per-organism fitness method, and `pick`
supplies the `random.randint(0, size - 1)` draws (draw `x` of the
comprehension is `pick x`, reduced into range). -/

/-- `prepopulation_control`: fitness threshold at the mean, retain the
strictly-above organisms, then the two size guards.  `none` models the
`ZeroDivisionError` on an empty collection. -/
def prepopulation_control (fitness : Organism → ℚ) (pick : ℕ → ℕ)
    (agents : List Organism) : Option (List Organism) :=
  if agents.length = 0 then none
  else
    let sfitness := agents.map fitness
    let threshold := sfitness.sum / (sfitness.length : ℚ)
    let temp := agents.filter (fun a => threshold < fitness a)
    let agents1 :=
      if 2001 < temp.length then
        (List.range 2000).map (fun x => temp.getD (pick x % temp.length) default)
      else agents
    some (if 21 < temp.length then temp else agents1)

/-- The sample selected by `freeze` (genetic.py:463-470), before it is
pickled to disk: the whole collection when it is small or the requested
sample would be, otherwise `int(len * proportion)` draws with
replacement. -/
def freeze_sample (pick : ℕ → ℕ) (agents : List Organism) (proportion : ℚ) :
    List Organism :=
  let pc := if proportion > 1 then 1 else proportion
  if agents.length < 101 ∨ (agents.length : ℚ) * pc < 101 then agents
  else
    (List.range (pytrunc ((agents.length : ℚ) * pc)).toNat).map
      (fun x => agents.getD (pick x % agents.length) default)

/-! ### Concrete organisms used in the counterexamples -/

/-- A one-base chromosome carrying a 1 (fitness 1 under the default
fitness function). -/
def orgOne : Organism := Organism.make [⟨[1], [1, 0], defaultBackground⟩] none

/-- A one-base chromosome carrying a 0 (fitness 0). -/
def orgZero : Organism := Organism.make [⟨[0], [1, 0], defaultBackground⟩] none

/-- 40 organisms of which exactly 21 sit strictly above the mean
fitness 21/40. -/
def agents40 : List Organism :=
  List.replicate 21 orgOne ++ List.replicate 19 orgZero

/-! ### Helper lemmas -/

theorem pytrunc_toNat (q : ℚ) : (pytrunc q).toNat = ⌊q⌋.toNat := by
  unfold pytrunc
  split
  · rename_i h
    have h1 : (0 : ℤ) ≤ ⌊-q⌋ := Int.floor_nonneg.mpr (by linarith)
    have h2 : ⌊q⌋ ≤ 0 := Int.floor_nonpos (le_of_lt h)
    rw [Int.toNat_eq_zero.mpr (by omega), Int.toNat_eq_zero.mpr h2]
  · rfl

theorem rmutateLoop_count (t : MuType) (base : List ℤ) (s e : ℤ) (rnd : ℕ → ℕ) :
    ∀ (m : ℕ) (st stf : MuState) (c : ℕ),
      rmutateLoop t base s e rnd m st = some (stf, c) → c = m := by
  intro m
  induction m with
  | zero =>
    intro st stf c h
    unfold rmutateLoop at h
    simp only [Option.some.injEq, Prod.mk.injEq] at h
    exact h.2.symm
  | succ n ih =>
    intro st stf c h
    unfold rmutateLoop at h
    split at h
    · simp at h
    · rename_i st' _
      split at h
      · simp at h
      · rename_i stf' c' hl
        simp only [Option.some.injEq, Prod.mk.injEq] at h
        have := ih st' stf' c' hl
        omega

theorem take_min_length (l : List ℤ) (m : ℕ) : l.take (min m l.length) = l.take m := by
  rcases le_total m l.length with h | h
  · rw [min_eq_left h]
  · rw [min_eq_right h, List.take_length, List.take_of_length_le h]

theorem drop_min_length (l : List ℤ) (m : ℕ) : l.drop (min m l.length) = l.drop m := by
  rcases le_total m l.length with h | h
  · rw [min_eq_left h]
  · rw [min_eq_right h, List.drop_length, List.drop_eq_nil_of_le h]

theorem pySliceTo_nonneg (l : List ℤ) (b : ℤ) (hb : 0 ≤ b) :
    pySliceTo l b = l.take b.toNat := by
  unfold pySliceTo pySliceIdx
  rw [if_neg (by omega)]
  have : (min b (l.length : ℤ)).toNat = min b.toNat l.length := by omega
  rw [this, take_min_length]

theorem pySliceFrom_nonneg (l : List ℤ) (a : ℤ) (ha : 0 ≤ a) :
    pySliceFrom l a = l.drop a.toNat := by
  unfold pySliceFrom pySliceIdx
  rw [if_neg (by omega)]
  have : (min a (l.length : ℤ)).toNat = min a.toNat l.length := by omega
  rw [this, drop_min_length]

/-! ### C6: the `start == end` fallback of `rmutate` -/

/-- C6 counterexample.  The claim says a call with `start == end`
behaves "as if no hotspot restriction were given", i.e. as the default
region `(start, end) = (0, -1)`.  On a 10-base sequence, `rmutate`
with `start = end = 3` yields the region `(0, 3)` (only `start` is
reset), while the unrestricted default call yields `(0, 9)`: the two
differ, so the region does not collapse to the whole sequence. -/
theorem rmutate_region_start_eq_end_cex :
    rmutate_region 10 3 3 = (0, 3) ∧ rmutate_region 10 0 (-1) = (0, 9) ∧
      rmutate_region 10 3 3 ≠ rmutate_region 10 0 (-1) := by
  decide

/-- C6 amended: when `start` equals the normalised `end`, `rmutate`
resets `start` to 0, so the mutation region becomes the prefix
`[0, end)` -- not the whole sequence; it coincides with the
no-hotspot default region `rmutate_region len 0 (-1)` exactly when the
normalised `end` is `len - 1`. -/
theorem rmutate_region_start_eq_end (seqlen s e : ℤ) (h : s = normEnd seqlen e) :
    rmutate_region seqlen s e = (0, normEnd seqlen e) ∧
      (rmutate_region seqlen s e = rmutate_region seqlen 0 (-1) ↔
        normEnd seqlen e = seqlen - 1) := by
  have hdef : rmutate_region seqlen 0 (-1) = (0, seqlen - 1) := by
    simp only [rmutate_region, normEnd]
    split_ifs <;> simp only [Prod.mk.injEq] <;> omega
  have hr : rmutate_region seqlen s e = (0, normEnd seqlen e) := by
    simp only [rmutate_region]
    rw [if_pos h]
  refine ⟨hr, ?_⟩
  rw [hr, hdef]
  constructor
  · intro hpair
    exact (Prod.mk.injEq _ _ _ _ ▸ hpair).2
  · intro hend
    rw [hend]

/-- Witness for `rmutate_region_start_eq_end` at `seqlen = 10`,
`start = end = 3`. -/
theorem rmutate_region_start_eq_end_witness :
    (3 : ℤ) = normEnd 10 3 ∧
      (rmutate_region 10 3 3 = (0, normEnd 10 3) ∧
        (rmutate_region 10 3 3 = rmutate_region 10 0 (-1) ↔
          normEnd 10 3 = 10 - 1)) :=
  ⟨by decide, rmutate_region_start_eq_end 10 3 3 (by decide)⟩

/-! ### C8: the `'invert'` arm of `kmutate` -/

/-- C8: the claim (and the operator's own documentation: "invert a
stretch of the chromosome") requires `kmutate('invert', 1, 4)` on
`[1,2,3,4,5]` to produce `[1,4,3,2,5]`, reversing the sub-range in
place and preserving the length.  The code instead inserts a reversed
copy of the slice before it without removing the original: the result
is `[1,4,3,2,2,3,4,5]`, of length 8, and every one of the original
symbols is still present. -/
theorem kmutate_invert_eval :
    kmutate_invert [1, 2, 3, 4, 5] 1 4 = [1, 4, 3, 2, 2, 3, 4, 5] ∧
      (kmutate_invert [1, 2, 3, 4, 5] 1 4).length = 8 ∧
      kmutate_invert [1, 2, 3, 4, 5] 1 4 ≠ [1, 4, 3, 2, 5] := by
  decide

/-! ### C7: edit count and length safety of `rmutate` -/

/-- `Chromosome.rmutate` written with its `let`s expanded, for use in
proofs. -/
theorem rmutate_eq_loop (c : Chromosome) (t : MuType) (rate : ℚ) (s e : ℤ)
    (rnd : ℕ → ℕ) :
    c.rmutate t rate s e rnd =
      match rmutateLoop t c.base (rmutate_region (c.sequence.length : ℤ) s e).1
          (rmutate_region (c.sequence.length : ℤ) s e).2 rnd
          (pytrunc ((c.background_mutation + rate) *
            (((rmutate_region (c.sequence.length : ℤ) s e).2 -
              (rmutate_region (c.sequence.length : ℤ) s e).1 : ℤ) : ℚ))).toNat
          ⟨c.sequence, 0⟩ with
      | none => none
      | some (stf, cnt) => some (stf.seq, cnt) := rfl

/-- C7: for every kind, rate, region and random stream, whenever the
`rmutate` run completes (Python raises no exception), the number of
random edits performed is exactly
`floor((background_mutation + rate) * region_length)` -- and zero when
that value is not positive -- and the resulting sequence length is not
negative; moreover when the value is not positive the run always
completes, performing no edit and leaving the sequence unchanged.
(`region_length` is the length `end - start` of the effective region
computed by lines 51-54.) -/
theorem rmutate_edit_count (c : Chromosome) (t : MuType) (rate : ℚ) (s e : ℤ)
    (rnd : ℕ → ℕ) (res : List ℤ × ℕ) :
    (c.rmutate t rate s e rnd = some res →
      res.2 = (⌊(c.background_mutation + rate) *
          (((rmutate_region (c.sequence.length : ℤ) s e).2 -
            (rmutate_region (c.sequence.length : ℤ) s e).1 : ℤ) : ℚ)⌋).toNat ∧
        0 ≤ (res.1.length : ℤ)) ∧
    (⌊(c.background_mutation + rate) *
        (((rmutate_region (c.sequence.length : ℤ) s e).2 -
          (rmutate_region (c.sequence.length : ℤ) s e).1 : ℤ) : ℚ)⌋ ≤ 0 →
      c.rmutate t rate s e rnd = some (c.sequence, 0)) := by
  constructor
  · intro h
    rw [rmutate_eq_loop] at h
    refine ⟨?_, Int.ofNat_nonneg _⟩
    split at h
    · simp at h
    · rename_i stf cnt hl
      simp only [Option.some.injEq] at h
      have hc := rmutateLoop_count t c.base _ _ rnd _ _ _ _ hl
      rw [← h]
      show cnt = _
      rw [hc, pytrunc_toNat]
  · intro h
    have hz : (pytrunc ((c.background_mutation + rate) *
        (((rmutate_region (c.sequence.length : ℤ) s e).2 -
          (rmutate_region (c.sequence.length : ℤ) s e).1 : ℤ) : ℚ))).toNat = 0 := by
      rw [pytrunc_toNat]
      exact Int.toNat_eq_zero.mpr h
    rw [rmutate_eq_loop, hz]
    rfl

/-- Witness for `rmutate_edit_count`: a point-mutation run on the
3-base sequence `[5,5,5]` with total rate `0 + 2` over the default
region `(0, 2)` completes with exactly `⌊2 * 2⌋ = 4` edits, and with
rate `-1` the computed count is negative, so the run completes with no
edit. -/
theorem rmutate_edit_count_witness :
    ((4 : ℕ) = (⌊(((⟨[5, 5, 5], [1, 0], 0⟩ : Chromosome)).background_mutation + 2) *
          (((rmutate_region (((⟨[5, 5, 5], [1, 0], 0⟩ : Chromosome)).sequence.length : ℤ) 0 (-1)).2 -
            (rmutate_region (((⟨[5, 5, 5], [1, 0], 0⟩ : Chromosome)).sequence.length : ℤ) 0 (-1)).1 : ℤ) : ℚ)⌋).toNat ∧
      0 ≤ (([1, 5, 5] : List ℤ).length : ℤ)) ∧
    Chromosome.rmutate ⟨[5, 5, 5], [1, 0], 0⟩ MuType.point (-1) 0 (-1) (fun _ => 0)
      = some ([5, 5, 5], 0) := by
  have hreg : rmutate_region (((⟨[5, 5, 5], [1, 0], 0⟩ : Chromosome)).sequence.length : ℤ) 0 (-1)
      = (0, 2) := by decide
  have hrun : Chromosome.rmutate ⟨[5, 5, 5], [1, 0], 0⟩ MuType.point 2 0 (-1)
      (fun _ => 0) = some ([1, 5, 5], 4) := by
    rw [rmutate_eq_loop, hreg]
    norm_num [pytrunc, Int.floor_ofNat]
    decide
  have hmain := (rmutate_edit_count ⟨[5, 5, 5], [1, 0], 0⟩ MuType.point 2 0 (-1)
      (fun _ => 0) ([1, 5, 5], 4)).1 hrun
  have hneg := (rmutate_edit_count ⟨[5, 5, 5], [1, 0], 0⟩ MuType.point (-1) 0 (-1)
      (fun _ => 0) ([5, 5, 5], 0)).2 (by rw [hreg]; norm_num)
  exact ⟨⟨hmain.1, hmain.2⟩, hneg⟩

/-! ### C9: crossover as a partition, and its involution property -/

/-- C9: for a cut position strictly inside both sequences, `crossover`
returns the pair `(head1 ++ tail2, head2 ++ tail1)` split at the cut,
and applying `crossover` again at the same position to the two outputs
reproduces both original sequences exactly. -/
theorem crossover_partition_involution (c1 c2 : Chromosome) (pos : ℤ)
    (h0 : 0 ≤ pos) (h1 : pos < (c1.sequence.length : ℤ))
    (h2 : pos < (c2.sequence.length : ℤ)) :
    (crossover c1 c2 pos).1.1.sequence =
        c1.sequence.take pos.toNat ++ c2.sequence.drop pos.toNat ∧
    (crossover c1 c2 pos).2.1.sequence =
        c2.sequence.take pos.toNat ++ c1.sequence.drop pos.toNat ∧
    (crossover (crossover c1 c2 pos).1.1 (crossover c1 c2 pos).2.1 pos).1.1.sequence
        = c1.sequence ∧
    (crossover (crossover c1 c2 pos).1.1 (crossover c1 c2 pos).2.1 pos).2.1.sequence
        = c2.sequence := by
  have hn1 : pos.toNat ≤ c1.sequence.length := by omega
  have hn2 : pos.toNat ≤ c2.sequence.length := by omega
  have hx : crossover c1 c2 pos =
      ((⟨c1.sequence.take pos.toNat ++ c2.sequence.drop pos.toNat, c1.base,
          defaultBackground⟩, true),
       (⟨c2.sequence.take pos.toNat ++ c1.sequence.drop pos.toNat, c2.base,
          defaultBackground⟩, true)) := by
    unfold crossover
    rw [if_pos ⟨h1, h2⟩, pySliceTo_nonneg _ _ h0, pySliceFrom_nonneg _ _ h0,
        pySliceTo_nonneg _ _ h0, pySliceFrom_nonneg _ _ h0]
  have hlen1 : (c1.sequence.take pos.toNat ++ c2.sequence.drop pos.toNat).length
      = c2.sequence.length := by
    simp [List.length_take, List.length_drop]
    omega
  have hlen2 : (c2.sequence.take pos.toNat ++ c1.sequence.drop pos.toNat).length
      = c1.sequence.length := by
    simp [List.length_take, List.length_drop]
    omega
  have htk1 : (c1.sequence.take pos.toNat).length = pos.toNat :=
    by simp [List.length_take]; omega
  have htk2 : (c2.sequence.take pos.toNat).length = pos.toNat :=
    by simp [List.length_take]; omega
  have hx2 : crossover
      (⟨c1.sequence.take pos.toNat ++ c2.sequence.drop pos.toNat, c1.base,
          defaultBackground⟩ : Chromosome)
      (⟨c2.sequence.take pos.toNat ++ c1.sequence.drop pos.toNat, c2.base,
          defaultBackground⟩ : Chromosome) pos =
      ((⟨c1.sequence, c1.base, defaultBackground⟩, true),
       (⟨c2.sequence, c2.base, defaultBackground⟩, true)) := by
    unfold crossover
    rw [if_pos ⟨by rw [hlen1]; exact h2, by rw [hlen2]; exact h1⟩,
        pySliceTo_nonneg _ _ h0, pySliceFrom_nonneg _ _ h0,
        pySliceTo_nonneg _ _ h0, pySliceFrom_nonneg _ _ h0]
    rw [List.take_left' htk1, List.drop_left' htk2,
        List.take_left' htk2, List.drop_left' htk1]
    rw [List.take_append_drop, List.take_append_drop]
  rw [hx]
  exact ⟨rfl, rfl, by rw [hx2], by rw [hx2]⟩

/-- Witness for `crossover_partition_involution` at two 3-base
chromosomes and cut position 1. -/
theorem crossover_partition_involution_witness :
    ((0 : ℤ) ≤ 1 ∧ (1 : ℤ) < (([1, 1, 1] : List ℤ).length : ℤ) ∧
      (1 : ℤ) < (([0, 0, 0] : List ℤ).length : ℤ)) ∧
    ((crossover ⟨[1, 1, 1], [1, 0], 0⟩ ⟨[0, 0, 0], [1, 0], 0⟩ 1).1.1.sequence =
        ([1, 1, 1] : List ℤ).take (1 : ℤ).toNat ++ ([0, 0, 0] : List ℤ).drop (1 : ℤ).toNat ∧
      (crossover ⟨[1, 1, 1], [1, 0], 0⟩ ⟨[0, 0, 0], [1, 0], 0⟩ 1).2.1.sequence =
        ([0, 0, 0] : List ℤ).take (1 : ℤ).toNat ++ ([1, 1, 1] : List ℤ).drop (1 : ℤ).toNat ∧
      (crossover (crossover ⟨[1, 1, 1], [1, 0], 0⟩ ⟨[0, 0, 0], [1, 0], 0⟩ 1).1.1
          (crossover ⟨[1, 1, 1], [1, 0], 0⟩ ⟨[0, 0, 0], [1, 0], 0⟩ 1).2.1 1).1.1.sequence
        = [1, 1, 1] ∧
      (crossover (crossover ⟨[1, 1, 1], [1, 0], 0⟩ ⟨[0, 0, 0], [1, 0], 0⟩ 1).1.1
          (crossover ⟨[1, 1, 1], [1, 0], 0⟩ ⟨[0, 0, 0], [1, 0], 0⟩ 1).2.1 1).2.1.sequence
        = [0, 0, 0]) :=
  ⟨⟨by decide, by decide, by decide⟩,
    crossover_partition_involution ⟨[1, 1, 1], [1, 0], 0⟩ ⟨[0, 0, 0], [1, 0], 0⟩ 1
      (by decide) (by decide) (by decide)⟩

/-! ### C10: crossover when the cut exceeds one or both lengths -/

/-- C10 counterexample.  The claim says that "in every case the output
chromosomes are newly constructed, with no aliasing of the inputs'
sequences".  But when the cut position is not inside either sequence,
the final `else` branch returns `(chromosome1, chromosome2)` -- the
very input objects, recorded by the `false` freshness flag -- so the
outputs alias the inputs. -/
theorem crossover_aliasing_cex :
    crossover ⟨[0, 1], [1, 0], defaultBackground⟩ ⟨[0, 1, 0], [1, 0], defaultBackground⟩ 5
      = ((⟨[0, 1], [1, 0], defaultBackground⟩, false),
         (⟨[0, 1, 0], [1, 0], defaultBackground⟩, false)) := by
  decide

/-- C10 amended: when the cut position is inside exactly one sequence,
the shorter sequence contributes unchanged while the other is split at
the cut (its head makes one output, its tail is appended after the
shorter sequence), and those outputs are newly constructed; when the
cut position is inside neither sequence, the two input chromosome
objects themselves are returned (aliased, freshness flag `false`),
with their values unchanged. -/
theorem crossover_splice_aliasing (c1 c2 : Chromosome) (pos : ℤ) (h0 : 0 ≤ pos) :
    (((c2.sequence.length : ℤ) ≤ pos ∧ pos < (c1.sequence.length : ℤ)) →
      crossover c1 c2 pos =
        ((⟨c1.sequence.take pos.toNat, c1.base, defaultBackground⟩, true),
         (⟨c2.sequence ++ c1.sequence.drop pos.toNat, c2.base, defaultBackground⟩,
           true))) ∧
    (((c1.sequence.length : ℤ) ≤ pos ∧ pos < (c2.sequence.length : ℤ)) →
      crossover c1 c2 pos =
        ((⟨c1.sequence ++ c2.sequence.drop pos.toNat, c1.base, defaultBackground⟩,
           true),
         (⟨c2.sequence.take pos.toNat, c2.base, defaultBackground⟩, true))) ∧
    (((c1.sequence.length : ℤ) ≤ pos ∧ (c2.sequence.length : ℤ) ≤ pos) →
      crossover c1 c2 pos = ((c1, false), (c2, false))) := by
  refine ⟨?_, ?_, ?_⟩
  · intro ⟨hb2, hb1⟩
    unfold crossover
    rw [if_neg (by intro hand; exact absurd hand.2 (by omega)), if_pos hb1,
        pySliceTo_nonneg _ _ h0, pySliceFrom_nonneg _ _ h0]
  · intro ⟨hb1, hb2⟩
    unfold crossover
    rw [if_neg (by intro hand; exact absurd hand.1 (by omega)),
        if_neg (by omega), if_pos hb2,
        pySliceTo_nonneg _ _ h0, pySliceFrom_nonneg _ _ h0]
  · intro ⟨hb1, hb2⟩
    unfold crossover
    rw [if_neg (by intro hand; exact absurd hand.1 (by omega)),
        if_neg (by omega), if_neg (by omega)]

/-- Witness for `crossover_splice_aliasing`: cut 2 lies inside the
3-base first sequence but not the 2-base second one, which passes
through as the head of the second output. -/
theorem crossover_splice_aliasing_witness :
    ((([7, 8] : List ℤ).length : ℤ) ≤ 2 ∧ (2 : ℤ) < (([1, 2, 3] : List ℤ).length : ℤ)) ∧
    crossover ⟨[1, 2, 3], [1, 0], 0⟩ ⟨[7, 8], [1, 0], 0⟩ 2 =
      ((⟨([1, 2, 3] : List ℤ).take (2 : ℤ).toNat, [1, 0], defaultBackground⟩, true),
       (⟨([7, 8] : List ℤ) ++ ([1, 2, 3] : List ℤ).drop (2 : ℤ).toNat, [1, 0],
          defaultBackground⟩, true)) :=
  ⟨⟨by decide, by decide⟩,
    (crossover_splice_aliasing ⟨[1, 2, 3], [1, 0], 0⟩ ⟨[7, 8], [1, 0], 0⟩ 2
        (by decide)).1 ⟨by decide, by decide⟩⟩

/-! ### C4: the vitality and age transition rules of `setStatus` -/

theorem setStatus_vitality_eq (st : StatusDict) (v : StatusValue) :
    setStatus st .vitality v = (pyFloat v).map (vitalityUpdate st) := rfl

theorem setStatus_other_eq (st : StatusDict) (f : StatusField) (v : StatusValue)
    (hf : f = .lifespan ∨ f = .fitness ∨ f = .death) :
    setStatus st f v = some (st.setField f v) := by
  rcases hf with rfl | rfl | rfl <;> rfl

theorem hundredPointOne_pos : (0 : ℚ) < hundredPointOne := by
  rw [hundredPointOne_eq]; norm_num

theorem vitalityUpdate_nonpos (st : StatusDict) (v : ℚ) (hv : v ≤ 0) :
    vitalityUpdate st v =
      { st with vitality := .q 0, alive := .b false, death := .s "death01" } := by
  have h1 := hundredPointOne_pos
  simp only [vitalityUpdate]
  rw [if_pos (show v = 0 ∨ v < 0 from by
        rcases hv.lt_or_eq with h | h
        exacts [Or.inr h, Or.inl h]),
      if_neg (show ¬(0 < v ∧ v < hundredPointOne) from by rintro ⟨h, _⟩; linarith),
      if_neg (show ¬(hundredPointOne < v) from by intro h; linarith)]

theorem vitalityUpdate_high (st : StatusDict) (v : ℚ) (hv : hundredPointOne < v) :
    vitalityUpdate st v = { st with vitality := .q 100 } := by
  have h1 := hundredPointOne_pos
  simp only [vitalityUpdate]
  rw [if_neg (show ¬(v = 0 ∨ v < 0) from by rintro (h | h) <;> linarith),
      if_neg (show ¬(0 < v ∧ v < hundredPointOne) from by rintro ⟨_, h⟩; linarith),
      if_pos hv]

theorem vitalityUpdate_mid (st : StatusDict) (v : ℚ) (hv0 : 0 < v)
    (hv1 : v < hundredPointOne) :
    vitalityUpdate st v = { st with vitality := .q v } := by
  simp only [vitalityUpdate]
  rw [if_neg (show ¬(v = 0 ∨ v < 0) from by rintro (h | h) <;> linarith),
      if_pos (show 0 < v ∧ v < hundredPointOne from ⟨hv0, hv1⟩),
      if_neg (show ¬(hundredPointOne < v) from by intro h; linarith)]

theorem vitalityUpdate_boundary (st : StatusDict) (v : ℚ)
    (hv : v = hundredPointOne) :
    vitalityUpdate st v = st := by
  have h1 := hundredPointOne_pos
  subst hv
  simp only [vitalityUpdate]
  rw [if_neg (show ¬(hundredPointOne = 0 ∨ hundredPointOne < 0) from by
        rintro (h | h) <;> linarith),
      if_neg (show ¬(0 < hundredPointOne ∧ hundredPointOne < hundredPointOne) from by
        rintro ⟨_, h⟩; exact absurd h (lt_irrefl _)),
      if_neg (show ¬(hundredPointOne < hundredPointOne) from lt_irrefl _)]

/-- C4 counterexample.  The claim says the stored vitality is clamped
to `[0, 100]`.  But `setStatus('vitality', 100.05)` stores `100.05`
itself -- the code only resets values strictly above `100.1` -- which
exceeds 100. -/
theorem setStatus_vitality_clamp_cex :
    setStatus defaultSD .vitality (.q (mkRat 2001 20)) =
        some { defaultSD with vitality := .q (mkRat 2001 20) } ∧
      ¬((mkRat 2001 20 : ℚ) ≤ 100) ∧ (mkRat 2001 20 : ℚ) = 100.05 := by
  refine ⟨by decide, by decide, ?_⟩
  rw [Rat.mkRat_eq_div]; norm_num

/-- C4 amended: `setStatus('vitality', v)` stores 100 when
`v > 100.1`, stores `v` itself when `0 < v < 100.1` (so values in
`(100, 100.1)` are kept unclamped), leaves the record unchanged when
`v = 100.1`, and for `v ≤ 0` yields
`{alive: false, vitality: 0, death: ZERO_VITALITY}`; and
`setStatus('age', v)` with `v ≥ lifespan` yields
`{alive: false, age: lifespan, death: MAX_AGE}`. -/
theorem setStatus_vitality_age (st : StatusDict) (v : ℚ) :
    (v ≤ 0 → setStatus st .vitality (.q v) =
      some { st with vitality := .q 0, alive := .b false, death := .s "death01" }) ∧
    (hundredPointOne < v → setStatus st .vitality (.q v) =
      some { st with vitality := .q 100 }) ∧
    (0 < v → v < hundredPointOne → setStatus st .vitality (.q v) =
      some { st with vitality := .q v }) ∧
    (v = hundredPointOne → setStatus st .vitality (.q v) = some st) ∧
    (∀ l : ℚ, st.lifespan = .q l → l ≤ v → setStatus st .age (.q v) =
      some { st with age := st.lifespan, alive := .b false,
                     death := .s "death02" }) := by
  refine ⟨?_, ?_, ?_, ?_, ?_⟩
  · intro hv
    rw [setStatus_vitality_eq]
    show some (vitalityUpdate st v) = _
    rw [vitalityUpdate_nonpos st v hv]
  · intro hv
    rw [setStatus_vitality_eq]
    show some (vitalityUpdate st v) = _
    rw [vitalityUpdate_high st v hv]
  · intro hv0 hv1
    rw [setStatus_vitality_eq]
    show some (vitalityUpdate st v) = _
    rw [vitalityUpdate_mid st v hv0 hv1]
  · intro hv
    rw [setStatus_vitality_eq]
    show some (vitalityUpdate st v) = _
    rw [vitalityUpdate_boundary st v hv]
  · intro l hl hlv
    have heq : setStatus st .age (.q v) =
        match pyFloat (.q v), pyFloat st.lifespan with
        | some v', some l' =>
          if v' < l' then some { st with age := .q v' }
          else some { st with age := st.lifespan, alive := .b false,
                              death := .s "death02" }
        | _, _ => none := rfl
    rw [heq, hl]
    dsimp only [pyFloat]
    rw [if_neg (show ¬(v < l) from by intro h; linarith)]

/-- Witness for `setStatus_vitality_age`: vitality `-5` kills with
`ZERO_VITALITY`; age `150` against the default lifespan `100` kills
with `MAX_AGE`. -/
theorem setStatus_vitality_age_witness :
    ((-5 : ℚ) ≤ 0 ∧ setStatus defaultSD .vitality (.q (-5)) =
      some { defaultSD with vitality := .q 0, alive := .b false,
                            death := .s "death01" }) ∧
    (defaultSD.lifespan = .q 100 ∧ (100 : ℚ) ≤ 150 ∧
      setStatus defaultSD .age (.q 150) =
        some { defaultSD with age := defaultSD.lifespan, alive := .b false,
                              death := .s "death02" }) :=
  ⟨⟨by norm_num, (setStatus_vitality_age defaultSD (-5)).1 (by norm_num)⟩,
   ⟨rfl, by norm_num,
     (setStatus_vitality_age defaultSD 150).2.2.2.2 100 rfl (by norm_num)⟩⟩

/-! ### C5: whether death is terminal under `setStatus` -/

/-- The status dict of an organism dead of zero vitality. -/
def deadSD : StatusDict :=
  ⟨.b false, .q 0, .q 0, .q 100, .q 100, .s "death01"⟩

/-- C5 counterexample.  The claim says no call to `setStatus` ever
makes `alive` true again.  But `setStatus('alive', True)` on a dead
organism sets `alive` back to `True` (genetic.py:253-254). -/
theorem setStatus_revival_cex :
    deadSD.alive = .b false ∧
      setStatus deadSD .alive (.b true) = some { deadSD with alive := .b true } ∧
      ({ deadSD with alive := .b true } : StatusDict).alive = .b true := by
  decide

/-- C5 amended: death is preserved by every `setStatus` call on a
field other than `'alive'`; only an explicit `setStatus('alive', ...)`
call can set the alive flag back. -/
theorem setStatus_dead_terminal (st : StatusDict) (f : StatusField)
    (v : StatusValue) (st' : StatusDict) (hdead : st.alive = .b false)
    (hf : f ≠ .alive) (hset : setStatus st f v = some st') :
    st'.alive = .b false := by
  cases f with
  | alive => exact absurd rfl hf
  | vitality =>
    rw [setStatus_vitality_eq] at hset
    cases hv : pyFloat v with
    | none => rw [hv] at hset; exact Option.noConfusion hset
    | some q =>
      rw [hv] at hset
      rw [← Option.some.inj hset]
      simp only [vitalityUpdate]
      split_ifs <;> simp [hdead]
  | age =>
    have heq : setStatus st .age v =
        match pyFloat v, pyFloat st.lifespan with
        | some v', some l' =>
          if v' < l' then some { st with age := .q v' }
          else some { st with age := st.lifespan, alive := .b false,
                              death := .s "death02" }
        | _, _ => none := rfl
    rw [heq] at hset
    cases hv : pyFloat v with
    | none => rw [hv] at hset; exact Option.noConfusion hset
    | some q =>
      rw [hv] at hset
      cases hlife : pyFloat st.lifespan with
      | none => rw [hlife] at hset; exact Option.noConfusion hset
      | some l =>
        rw [hlife] at hset
        have hset2 : (if q < l then some { st with age := StatusValue.q q }
            else some { st with age := st.lifespan, alive := .b false,
                                death := .s "death02" }) = some st' := hset
        by_cases hvl : q < l
        · rw [if_pos hvl] at hset2
          rw [← Option.some.inj hset2]
          simp [hdead]
        · rw [if_neg hvl] at hset2
          rw [← Option.some.inj hset2]
  | lifespan =>
    rw [setStatus_other_eq st _ v (Or.inl rfl)] at hset
    simp only [Option.some.injEq] at hset
    rw [← hset]
    simp [StatusDict.setField, hdead]
  | fitness =>
    rw [setStatus_other_eq st _ v (Or.inr (Or.inl rfl))] at hset
    simp only [Option.some.injEq] at hset
    rw [← hset]
    simp [StatusDict.setField, hdead]
  | death =>
    rw [setStatus_other_eq st _ v (Or.inr (Or.inr rfl))] at hset
    simp only [Option.some.injEq] at hset
    rw [← hset]
    simp [StatusDict.setField, hdead]

/-- Witness for `setStatus_dead_terminal`: writing a new fitness to a
dead organism leaves it dead. -/
theorem setStatus_dead_terminal_witness :
    deadSD.alive = .b false ∧ StatusField.fitness ≠ StatusField.alive ∧
      setStatus deadSD .fitness (.q 1) = some { deadSD with fitness := .q 1 } ∧
      ({ deadSD with fitness := .q 1 } : StatusDict).alive = .b false :=
  ⟨by decide, by decide, by decide,
    setStatus_dead_terminal deadSD .fitness (.q 1) _ (by decide) (by decide)
      (by decide)⟩

/-! ### C3: the status dict is class-level and shared -/

/-- C3: `Organism.status` is a single class-level dict.  For any two
organisms whose `status` attribute was never shadowed by an instance
attribute (which is every organism this program constructs, since
`__init__` assigns only `genome` and `gender`), a `setStatus` on `A`
rewrites the one class dict, so a subsequent `getStatus` on `B` reads
the updated value; and `clone()` introduces no instance attribute
either, so the clone's status lookup resolves to that same shared
dict. -/
theorem status_shared_across_organisms (h h' : OrgHeap) (A B A' : Organism)
    (f : StatusField) (v : StatusValue)
    (hA : A.instStatus = none) (hB : B.instStatus = none)
    (hset : orgSetStatus h A f v = some (h', A')) :
    setStatus h.classStatus f v = some h'.classStatus ∧
    (∀ g, orgGetStatus h' B g = h'.classStatus.getField g) ∧
    (∀ g, orgGetStatus h' B g = orgGetStatus h' A' g) ∧
    A.clone.instStatus = none ∧
    (∀ g, orgGetStatus h' A.clone g = h'.classStatus.getField g) := by
  unfold orgSetStatus at hset
  rw [hA] at hset
  cases hs : setStatus h.classStatus f v with
  | none => rw [hs] at hset; exact Option.noConfusion hset
  | some d =>
    rw [hs] at hset
    obtain ⟨hh, hAA⟩ := Prod.mk.inj (Option.some.inj hset)
    subst hh
    subst hAA
    refine ⟨?_, ?_, ?_, ?_, ?_⟩
    · rfl
    · intro g
      unfold orgGetStatus getStatus statusOf
      rw [hB]
    · intro g
      unfold orgGetStatus getStatus statusOf
      rw [hB, hA]
    · unfold Organism.clone
      exact hA
    · intro g
      unfold orgGetStatus getStatus statusOf Organism.clone
      rw [hA]

/-- The class dict after the witness update below. -/
def heap1 : OrgHeap := ⟨{ defaultSD with fitness := .q 42 }⟩

/-- Witness for `status_shared_across_organisms`: setting `fitness` to
42 on `orgOne` makes `getStatus('fitness')` on the distinct organism
`orgZero` return 42. -/
theorem status_shared_across_organisms_witness :
    orgOne.instStatus = none ∧ orgZero.instStatus = none ∧
      orgSetStatus ⟨defaultSD⟩ orgOne .fitness (.q 42) = some (heap1, orgOne) ∧
      orgGetStatus heap1 orgZero .fitness = .q 42 ∧
      orgOne.clone.instStatus = none := by
  refine ⟨by decide, by decide, by decide, ?_, by decide⟩
  have hshared := (status_shared_across_organisms ⟨defaultSD⟩ heap1 orgOne orgZero
      orgOne .fitness (.q 42) rfl rfl (by decide)).2.1 .fitness
  rw [hshared]
  decide

/-! ### C1: `prepopulation_control` -/

/-- C1: evaluation of the selection step at a 40-organism population
whose retained (strictly-above-mean) set has exactly 21 members,
whatever random stream is supplied.  The claim -- which matches the
method's own docstring -- requires the 21 retained organisms to become
the new collection (21 > 20); the code instead requires `len(temp) >
21` and therefore keeps the prior 40-organism collection unchanged.
(For retained sets larger than 2001 the code's 2000-organism resample
is likewise dead: it is immediately overwritten by `self.agents =
temp`, because the second `if` is not an `elif` and a retained set
larger than 2001 is in particular larger than 21.) -/
theorem prepopulation_control_eval : ∀ pick : ℕ → ℕ,
    prepopulation_control Organism.fitnessQ pick agents40 = some agents40 ∧
    (agents40.filter (fun a =>
        (agents40.map Organism.fitnessQ).sum /
          (((agents40.map Organism.fitnessQ).length : ℕ) : ℚ) <
          Organism.fitnessQ a)).length = 21 ∧
    agents40.length = 40 ∧ some agents40 ≠ some (List.replicate 21 orgOne) := by
  intro pick
  have hf1 : Organism.fitnessQ orgOne = 1 := by
    norm_num [Organism.fitnessQ, orgOne, Organism.make]
  have hf0 : Organism.fitnessQ orgZero = 0 := by
    norm_num [Organism.fitnessQ, orgZero, Organism.make]
  have hmap : agents40.map Organism.fitnessQ
      = List.replicate 21 (1 : ℚ) ++ List.replicate 19 0 := by
    simp [agents40, List.map_append, List.map_replicate, hf1, hf0]
  have hthr : (agents40.map Organism.fitnessQ).sum /
      (((agents40.map Organism.fitnessQ).length : ℕ) : ℚ) = 21 / 40 := by
    rw [hmap]
    simp [List.sum_replicate, nsmul_eq_mul]
    norm_num
  have hfil : agents40.filter (fun a => (21 : ℚ) / 40 < Organism.fitnessQ a)
      = List.replicate 21 orgOne := by
    simp only [agents40, List.filter_append, List.filter_replicate, hf1, hf0]
    norm_num
  refine ⟨?_, ?_, by simp [agents40], ?_⟩
  · simp only [prepopulation_control]
    rw [if_neg (show ¬(agents40.length = 0) from by simp [agents40])]
    simp only [hthr, hfil, List.length_replicate]
    norm_num
  · simp only [hthr, hfil, List.length_replicate]
  · intro hcontra
    have := congrArg (fun l => Option.map List.length l) hcontra
    simp [agents40] at this

/-! ### C2: the sample size of `freeze` -/

/-- C2 counterexample.  The claim asserts that freezing 10000
organisms with proportion 0.01 yields a sample of exactly 100.  But
`10000 * 0.01 = 100 < 101`, so the preserve-everything branch fires
and the sample is the entire 10000-organism collection. -/
theorem freeze_sample_10000_cex :
    (freeze_sample (fun _ => 0) (List.replicate 10000 orgOne) (1 / 100)).length
      = 10000 ∧
    (freeze_sample (fun _ => 0) (List.replicate 10000 orgOne) (1 / 100)).length
      ≠ 100 := by
  have hc : ((List.replicate 10000 orgOne).length : ℚ) *
      (if (1 : ℚ) < 1 / 100 then 1 else 1 / 100) < 101 := by
    rw [if_neg (by norm_num)]
    simp only [List.length_replicate]
    norm_num
  have hs : freeze_sample (fun _ => 0) (List.replicate 10000 orgOne) (1 / 100)
      = List.replicate 10000 orgOne := by
    simp only [freeze_sample]
    rw [if_pos (Or.inr hc)]
  rw [hs]
  refine ⟨by simp only [List.length_replicate], by simp only [List.length_replicate]; norm_num⟩

/-- C2 amended: the sample kept by `freeze` is the entire collection
when the collection is smaller than 101 or the requested sample
`len * proportion` is smaller than 101 (with the proportion clamped to
at most 1), and otherwise has exactly `int(len * proportion)` members;
so freezing 50 organisms at proportion 1.0 keeps all 50, while
freezing 10000 organisms at proportion 0.01 keeps all 10000 (not
100). -/
theorem freeze_sample_size (pick : ℕ → ℕ) (agents : List Organism) (p : ℚ) :
    (freeze_sample pick agents p).length =
      (if agents.length < 101 ∨
          (agents.length : ℚ) * (if 1 < p then 1 else p) < 101 then agents.length
       else (pytrunc ((agents.length : ℚ) * (if 1 < p then 1 else p))).toNat) ∧
    (freeze_sample pick (List.replicate 50 orgOne) 1).length = 50 ∧
    (freeze_sample pick (List.replicate 10000 orgOne) (1 / 100)).length
      = 10000 := by
  refine ⟨?_, ?_, ?_⟩
  · simp only [freeze_sample, gt_iff_lt]
    split_ifs <;>
      simp only [List.length_map, List.length_range]
  · have hs : freeze_sample pick (List.replicate 50 orgOne) 1
        = List.replicate 50 orgOne := by
      simp only [freeze_sample]
      rw [if_pos (Or.inl (by simp only [List.length_replicate]; norm_num))]
    rw [hs]
    simp only [List.length_replicate]
  · have hc : ((List.replicate 10000 orgOne).length : ℚ) *
        (if (1 : ℚ) < 1 / 100 then 1 else 1 / 100) < 101 := by
      rw [if_neg (by norm_num)]
      simp only [List.length_replicate]
      norm_num
    have hs : freeze_sample pick (List.replicate 10000 orgOne) (1 / 100)
        = List.replicate 10000 orgOne := by
      simp only [freeze_sample]
      rw [if_pos (Or.inr hc)]
    rw [hs]
    simp only [List.length_replicate]

end Genetic
